import Mathlib

/-!
Shallow embedding of src/cipher.rs from rust-gcrypt: the symmetric-cipher
session wrapper over the native libgcrypt calls. The wrapper's own code is
translated directly; the native library, the crate's error module, the
`ffi_enum_wrapper!` / `return_err!` macros and `init_default` are not under
src/, so they are modelled from the spec where marked. Every native call a
wrapper function performs is recorded in an explicit trace, so that claims
about "exactly one native call", error pass-through and handle lifecycle can
be stated and proved.
-/

namespace Gcrypt

/-- Bytes (Rust `u8` values) are modelled as natural numbers. -/
abbrev Byte := Nat

/-- Modelled from the spec: `std::str::Utf8Error`, the decode-failure value
returned when native name bytes are not valid text (an external collaborator;
only its identity matters here). -/
structure Utf8Error where
  valid_up_to : Nat
deriving DecidableEq, Repr

/-- Modelled from the spec: the crate's structured error type (the error
module is not under src/). It wraps the native status code unmodified:
"every native call returns an integer status; the core's error type wraps
this code". -/
structure Error where
  code : Nat
deriving DecidableEq, Repr

/-- Modelled from the spec: the `return_err!` macro of the error module (not
under src/): "a non-zero code ... is always converted into a structured error
and returned to the caller"; a zero status means success. -/
def return_err (status : Nat) : Except Error Unit :=
  if status = 0 then .ok () else .error ⟨status⟩

/-- One native libgcrypt call as performed by the wrapper, carrying exactly
the arguments the source passes across the FFI boundary (buffer contents
stand in for the pointers, explicit lengths mirror the length arguments).
For `encryptCall`/`decryptCall` the fields mirror
(outbuf contents, inbuf as `some bytes` or `none` for a null pointer, insize);
outsize is the length of the outbuf contents. -/
inductive NativeCall
  | initCall
  | openC (algo : Int) (mode : Int) (flags : Nat)
  | setkey (handle : Nat) (key : List Byte) (len : Nat)
  | setiv (handle : Nat) (iv : List Byte) (len : Nat)
  | setctr (handle : Nat) (ctr : List Byte) (len : Nat)
  | resetCall (handle : Nat)
  | authenticateCall (handle : Nat) (bytes : List Byte) (len : Nat)
  | gettag (handle : Nat) (taglen : Nat)
  | checktag (handle : Nat) (tag : List Byte) (len : Nat)
  | encryptCall (handle : Nat) (out : List Byte) (input : Option (List Byte)) (inlen : Nat)
  | decryptCall (handle : Nat) (out : List Byte) (input : Option (List Byte)) (inlen : Nat)
  | closeCall (handle : Nat)
deriving DecidableEq, Repr

/-- The native library as an oracle (an external collaborator, out of scope
per the spec): a status code for every call, the bytes a call writes into its
output buffer, and the pure lookup entry points used by the catalogs. -/
structure Oracle where
  status : NativeCall → Nat
  out_bytes : NativeCall → List Byte
  map_name : String → Int
  mode_from_oid : String → Int
  algo_name : Int → Option (List Byte)
  to_str : List Byte → Except Utf8Error String
  keylen : Int → Nat
  blklen : Int → Nat

/-- `Algorithm` as produced by `ffi_enum_wrapper!` (macro not under src/):
modelled from the spec, a transparent wrapper around the raw native integer
code with named constants; `from_raw` never checks the code ("the source
treats an unrecognized numeric code passed into from_raw as always
convertible (no fallback variant for unknown codes)"). -/
structure Algorithm where
  raw : Int
deriving DecidableEq, Repr

/-- Modelled from the spec: `from_raw` as generated by `ffi_enum_wrapper!` —
wraps any raw code, with no validation against the variant table. -/
def Algorithm.from_raw (raw : Int) : Algorithm := ⟨raw⟩

/-- Modelled from the spec: the algorithm table's numeric codes are "dictated
by the native library's ABI and must be mirrored exactly" (GCRY_CIPHER_*
values of libgcrypt). -/
def Algorithm.Idea : Algorithm := ⟨1⟩

def Algorithm.TripleDes : Algorithm := ⟨2⟩

def Algorithm.Cast5 : Algorithm := ⟨3⟩

def Algorithm.Blowfish : Algorithm := ⟨4⟩

def Algorithm.SaferSk128 : Algorithm := ⟨5⟩

def Algorithm.DesSk : Algorithm := ⟨6⟩

def Algorithm.Aes : Algorithm := ⟨7⟩

def Algorithm.Aes128 : Algorithm := ⟨7⟩

def Algorithm.Aes192 : Algorithm := ⟨8⟩

def Algorithm.Aes256 : Algorithm := ⟨9⟩

def Algorithm.Rijndael : Algorithm := ⟨7⟩

def Algorithm.Rijndael128 : Algorithm := ⟨7⟩

def Algorithm.Rijndael192 : Algorithm := ⟨8⟩

def Algorithm.Rijndael256 : Algorithm := ⟨9⟩

def Algorithm.Twofish : Algorithm := ⟨10⟩

def Algorithm.Arcfour : Algorithm := ⟨301⟩

def Algorithm.Des : Algorithm := ⟨302⟩

def Algorithm.Twofish128 : Algorithm := ⟨303⟩

def Algorithm.Serpent128 : Algorithm := ⟨304⟩

def Algorithm.Serpent192 : Algorithm := ⟨305⟩

def Algorithm.Serpent256 : Algorithm := ⟨306⟩

def Algorithm.Rfc2268_40 : Algorithm := ⟨307⟩

def Algorithm.Rfc2268_128 : Algorithm := ⟨308⟩

def Algorithm.Seed : Algorithm := ⟨309⟩

def Algorithm.Camellia128 : Algorithm := ⟨310⟩

def Algorithm.Camellia192 : Algorithm := ⟨311⟩

def Algorithm.Camellia256 : Algorithm := ⟨312⟩

def Algorithm.Salsa20 : Algorithm := ⟨313⟩

def Algorithm.Salsa20r12 : Algorithm := ⟨314⟩

def Algorithm.Gost28147 : Algorithm := ⟨315⟩

def Algorithm.Chacha20 : Algorithm := ⟨316⟩

def Algorithm.Gost28147Mesh : Algorithm := ⟨317⟩

def Algorithm.Sm4 : Algorithm := ⟨318⟩

/-- The raw codes of every variant listed in the source's `Algorithm` table. -/
def Algorithm.enumerated : List Int :=
  [Algorithm.Idea.raw, Algorithm.TripleDes.raw, Algorithm.Cast5.raw,
   Algorithm.Blowfish.raw, Algorithm.SaferSk128.raw, Algorithm.DesSk.raw,
   Algorithm.Aes.raw, Algorithm.Aes128.raw, Algorithm.Aes192.raw,
   Algorithm.Aes256.raw, Algorithm.Rijndael.raw, Algorithm.Rijndael128.raw,
   Algorithm.Rijndael192.raw, Algorithm.Rijndael256.raw, Algorithm.Twofish.raw,
   Algorithm.Arcfour.raw, Algorithm.Des.raw, Algorithm.Twofish128.raw,
   Algorithm.Serpent128.raw, Algorithm.Serpent192.raw, Algorithm.Serpent256.raw,
   Algorithm.Rfc2268_40.raw, Algorithm.Rfc2268_128.raw, Algorithm.Seed.raw,
   Algorithm.Camellia128.raw, Algorithm.Camellia192.raw, Algorithm.Camellia256.raw,
   Algorithm.Salsa20.raw, Algorithm.Salsa20r12.raw, Algorithm.Gost28147.raw,
   Algorithm.Chacha20.raw, Algorithm.Gost28147Mesh.raw, Algorithm.Sm4.raw]

/-- `Algorithm::from_name`: one native lookup (`gcry_cipher_map_name`); a
non-zero result is wrapped with `from_raw`, zero yields `None`. -/
def Algorithm.from_name (σ : Oracle) (name : String) : Option Algorithm :=
  let result := σ.map_name name
  if result ≠ 0 then some (Algorithm.from_raw result) else none

/-- `Algorithm::name_raw`: `gcry_cipher_algo_name` returns a C string pointer;
a null pointer is `none`, otherwise the pointed-to bytes. -/
def Algorithm.name_raw (σ : Oracle) (a : Algorithm) : Option (List Byte) :=
  σ.algo_name a.raw

/-- `Algorithm::name`:
`self.name_raw().map_or(Err(None), |s| s.to_str().map_err(Some))`. -/
def Algorithm.name (σ : Oracle) (a : Algorithm) : Except (Option Utf8Error) String :=
  match Algorithm.name_raw σ a with
  | none => .error none
  | some s =>
    match σ.to_str s with
    | .ok t => .ok t
    | .error e => .error (some e)

/-- `Algorithm::key_len`: `gcry_cipher_get_algo_keylen(self.raw())`. -/
def Algorithm.key_len (σ : Oracle) (a : Algorithm) : Nat :=
  σ.keylen a.raw

/-- `Algorithm::block_len`: `gcry_cipher_get_algo_blklen(self.raw())`. -/
def Algorithm.block_len (σ : Oracle) (a : Algorithm) : Nat :=
  σ.blklen a.raw

/-- `Mode` as produced by `ffi_enum_wrapper!`: same modelling as
`Algorithm` (see there). -/
structure Mode where
  raw : Int
deriving DecidableEq, Repr

/-- Modelled from the spec: `Mode::from_raw` as generated by
`ffi_enum_wrapper!` — wraps any raw code without validation. -/
def Mode.from_raw (raw : Int) : Mode := ⟨raw⟩

/-- Modelled from the spec: mode codes mirror the native ABI
(GCRY_CIPHER_MODE_* values of libgcrypt). -/
def Mode.Ecb : Mode := ⟨1⟩

def Mode.Cfb : Mode := ⟨2⟩

def Mode.Cbc : Mode := ⟨3⟩

def Mode.Stream : Mode := ⟨4⟩

def Mode.Ofb : Mode := ⟨5⟩

def Mode.Ctr : Mode := ⟨6⟩

def Mode.AesWrap : Mode := ⟨7⟩

def Mode.Ccm : Mode := ⟨8⟩

def Mode.Gcm : Mode := ⟨9⟩

def Mode.Poly1305 : Mode := ⟨10⟩

def Mode.Ocb : Mode := ⟨11⟩

def Mode.Cfb8 : Mode := ⟨12⟩

def Mode.Xts : Mode := ⟨13⟩

def Mode.Eax : Mode := ⟨14⟩

/-- The raw codes of every variant listed in the source's `Mode` table. -/
def Mode.enumerated : List Int :=
  [Mode.Ecb.raw, Mode.Cfb.raw, Mode.Cbc.raw, Mode.Stream.raw, Mode.Ofb.raw,
   Mode.Ctr.raw, Mode.AesWrap.raw, Mode.Ccm.raw, Mode.Gcm.raw,
   Mode.Poly1305.raw, Mode.Ocb.raw, Mode.Cfb8.raw, Mode.Xts.raw, Mode.Eax.raw]

/-- `Mode::from_oid`: one native lookup (`gcry_cipher_mode_from_oid`); a
non-zero result is wrapped with `from_raw`, zero yields `None`. -/
def Mode.from_oid (σ : Oracle) (name : String) : Option Mode :=
  let result := σ.mode_from_oid name
  if result ≠ 0 then some (Mode.from_raw result) else none

/-- `Flags`: a bitset over the native flag integer (`bitflags!`). -/
structure Flags where
  bits : Nat
deriving DecidableEq, Repr

/-- `Flags::NONE = 0`. -/
def Flags.NONE : Flags := ⟨0⟩

/-- `GCRY_CIPHER_SECURE`. -/
def Flags.SECURE : Flags := ⟨1⟩

/-- `GCRY_CIPHER_ENABLE_SYNC`. -/
def Flags.ENABLE_SYNC : Flags := ⟨2⟩

/-- `GCRY_CIPHER_CBC_CTS`. -/
def Flags.CBC_CTS : Flags := ⟨4⟩

/-- `GCRY_CIPHER_CBC_MAC`. -/
def Flags.CBC_MAC : Flags := ⟨8⟩

/-- `Cipher(NonNull<ffi::gcry_cipher_hd_t>)`: the session owns exactly one
native handle, modelled as a numeric handle id. -/
structure Cipher where
  handle : Nat
deriving DecidableEq, Repr

/-- Process-wide state outside any one session: whether the lazy library
initialization has run, and the native allocator's supply of fresh context
handles (modelled as a counter: every handle ever allocated is below it). -/
structure World where
  initialized : Bool
  next_handle : Nat
deriving DecidableEq, Repr

/-- Modelled from the spec: `crate::init_default` — the "idempotent,
process-wide" library initialization, "safe to call repeatedly". -/
def init_default (w : World) : World := { w with initialized := true }

/-- `Cipher::with_flags`: runs `init_default`, then one
`gcry_cipher_open(&mut handle, algo.raw(), mode.raw(), flags.bits())`; a
non-zero status is returned as an error (`return_err!`) and no cipher is
produced, otherwise the freshly allocated handle is wrapped. -/
def Cipher.with_flags (σ : Oracle) (w : World) (algo : Algorithm) (mode : Mode)
    (flags : Flags) : Except Error Cipher × World × List NativeCall :=
  let w1 := init_default w
  let call := NativeCall.openC algo.raw mode.raw flags.bits
  let status := σ.status call
  if status = 0 then
    (.ok ⟨w1.next_handle⟩, { w1 with next_handle := w1.next_handle + 1 },
      [NativeCall.initCall, call])
  else
    (.error ⟨status⟩, w1, [NativeCall.initCall, call])

/-- `Cipher::new`: `Cipher::with_flags(algo, mode, Flags::NONE)`. -/
def Cipher.new (σ : Oracle) (w : World) (algo : Algorithm) (mode : Mode) :
    Except Error Cipher × World × List NativeCall :=
  Cipher.with_flags σ w algo mode Flags.NONE

/-- `Drop::drop`: `gcry_cipher_close(self.as_raw())`, the one native call of
the destructor. -/
def Cipher.drop (c : Cipher) : List NativeCall :=
  [NativeCall.closeCall c.handle]

/-- `Cipher::set_key`: one `gcry_cipher_setkey(handle, key.as_ptr(),
key.len())`, result via `return_err!`; `self` is untouched. -/
def Cipher.set_key (σ : Oracle) (c : Cipher) (key : List Byte) :
    Except Error Unit × Cipher × List NativeCall :=
  let call := NativeCall.setkey c.handle key key.length
  (return_err (σ.status call), c, [call])

/-- `Cipher::set_iv`: one `gcry_cipher_setiv(handle, iv.as_ptr(), iv.len())`. -/
def Cipher.set_iv (σ : Oracle) (c : Cipher) (iv : List Byte) :
    Except Error Unit × Cipher × List NativeCall :=
  let call := NativeCall.setiv c.handle iv iv.length
  (return_err (σ.status call), c, [call])

/-- `Cipher::set_ctr`: one `gcry_cipher_setctr(handle, ctr.as_ptr(),
ctr.len())`. -/
def Cipher.set_ctr (σ : Oracle) (c : Cipher) (ctr : List Byte) :
    Except Error Unit × Cipher × List NativeCall :=
  let call := NativeCall.setctr c.handle ctr ctr.length
  (return_err (σ.status call), c, [call])

/-- `Cipher::reset`: one `gcry_cipher_reset(handle)`. -/
def Cipher.reset (σ : Oracle) (c : Cipher) :
    Except Error Unit × Cipher × List NativeCall :=
  let call := NativeCall.resetCall c.handle
  (return_err (σ.status call), c, [call])

/-- `Cipher::authenticate`: one `gcry_cipher_authenticate(handle,
bytes.as_ptr(), bytes.len())`. -/
def Cipher.authenticate (σ : Oracle) (c : Cipher) (bytes : List Byte) :
    Except Error Unit × Cipher × List NativeCall :=
  let call := NativeCall.authenticateCall c.handle bytes bytes.length
  (return_err (σ.status call), c, [call])

/-- `Cipher::get_tag`: one `gcry_cipher_gettag(handle, tag.as_mut_ptr(),
tag.len())`; the native call writes the tag buffer (second component). -/
def Cipher.get_tag (σ : Oracle) (c : Cipher) (tag : List Byte) :
    Except Error Unit × List Byte × Cipher × List NativeCall :=
  let call := NativeCall.gettag c.handle tag.length
  (return_err (σ.status call), σ.out_bytes call, c, [call])

/-- `Cipher::verify_tag`: one `gcry_cipher_checktag(handle, tag.as_ptr(),
tag.len())`. -/
def Cipher.verify_tag (σ : Oracle) (c : Cipher) (tag : List Byte) :
    Except Error Unit × Cipher × List NativeCall :=
  let call := NativeCall.checktag c.handle tag tag.length
  (return_err (σ.status call), c, [call])

/-- `Cipher::encrypt`: one `gcry_cipher_encrypt(handle, output.as_mut_ptr(),
output.len(), input.as_ptr(), input.len())`; the bytes the native call writes
into the output buffer are the second component. -/
def Cipher.encrypt (σ : Oracle) (c : Cipher) (input : List Byte)
    (output : List Byte) : Except Error Unit × List Byte × Cipher × List NativeCall :=
  let call := NativeCall.encryptCall c.handle output (some input) input.length
  (return_err (σ.status call), σ.out_bytes call, c, [call])

/-- `Cipher::decrypt`: one `gcry_cipher_decrypt(handle, output.as_mut_ptr(),
output.len(), input.as_ptr(), input.len())`. -/
def Cipher.decrypt (σ : Oracle) (c : Cipher) (input : List Byte)
    (output : List Byte) : Except Error Unit × List Byte × Cipher × List NativeCall :=
  let call := NativeCall.decryptCall c.handle output (some input) input.length
  (return_err (σ.status call), σ.out_bytes call, c, [call])

/-- `Cipher::encrypt_inplace`: one `gcry_cipher_encrypt(handle,
buffer.as_mut_ptr(), buffer.len(), ptr::null(), 0)`. -/
def Cipher.encrypt_inplace (σ : Oracle) (c : Cipher) (buffer : List Byte) :
    Except Error Unit × List Byte × Cipher × List NativeCall :=
  let call := NativeCall.encryptCall c.handle buffer none 0
  (return_err (σ.status call), σ.out_bytes call, c, [call])

/-- `Cipher::decrypt_inplace`: one `gcry_cipher_decrypt(handle,
buffer.as_mut_ptr(), buffer.len(), ptr::null(), 0)`. -/
def Cipher.decrypt_inplace (σ : Oracle) (c : Cipher) (buffer : List Byte) :
    Except Error Unit × List Byte × Cipher × List NativeCall :=
  let call := NativeCall.decryptCall c.handle buffer none 0
  (return_err (σ.status call), σ.out_bytes call, c, [call])

/-- A session operation with result `r` and trace `trace` performed exactly the
one native call `call`, succeeded iff its status was zero, and surfaced any
non-zero status unmodified in the structured error. -/
def oneCallStatus (σ : Oracle) (r : Except Error Unit) (trace : List NativeCall)
    (call : NativeCall) : Prop :=
  trace = [call] ∧ (r = .ok () ↔ σ.status call = 0) ∧
    (σ.status call ≠ 0 → r = .error ⟨σ.status call⟩)

theorem return_err_oneCall (σ : Oracle) (call : NativeCall) :
    oneCallStatus σ (return_err (σ.status call)) [call] call := by
  refine ⟨rfl, ?_, ?_⟩ <;> by_cases h : σ.status call = 0 <;>
    simp [return_err, h]

/-- Claim C1: every fallible session operation (set_key, set_iv, set_ctr,
reset, authenticate, get_tag, verify_tag, encrypt, decrypt, encrypt_inplace,
decrypt_inplace) performs exactly one native call, returns Ok () iff that
call's status code is zero, and a non-zero status is never retried: it is
returned as a structured error carrying the original code unmodified. -/
theorem cipher_session_ops_error_discipline (σ : Oracle) (c : Cipher)
    (key iv ctr aad tag input output buffer : List Byte) :
    oneCallStatus σ (Cipher.set_key σ c key).1 (Cipher.set_key σ c key).2.2
      (NativeCall.setkey c.handle key key.length) ∧
    oneCallStatus σ (Cipher.set_iv σ c iv).1 (Cipher.set_iv σ c iv).2.2
      (NativeCall.setiv c.handle iv iv.length) ∧
    oneCallStatus σ (Cipher.set_ctr σ c ctr).1 (Cipher.set_ctr σ c ctr).2.2
      (NativeCall.setctr c.handle ctr ctr.length) ∧
    oneCallStatus σ (Cipher.reset σ c).1 (Cipher.reset σ c).2.2
      (NativeCall.resetCall c.handle) ∧
    oneCallStatus σ (Cipher.authenticate σ c aad).1
      (Cipher.authenticate σ c aad).2.2
      (NativeCall.authenticateCall c.handle aad aad.length) ∧
    oneCallStatus σ (Cipher.get_tag σ c tag).1 (Cipher.get_tag σ c tag).2.2.2
      (NativeCall.gettag c.handle tag.length) ∧
    oneCallStatus σ (Cipher.verify_tag σ c tag).1
      (Cipher.verify_tag σ c tag).2.2
      (NativeCall.checktag c.handle tag tag.length) ∧
    oneCallStatus σ (Cipher.encrypt σ c input output).1
      (Cipher.encrypt σ c input output).2.2.2
      (NativeCall.encryptCall c.handle output (some input) input.length) ∧
    oneCallStatus σ (Cipher.decrypt σ c input output).1
      (Cipher.decrypt σ c input output).2.2.2
      (NativeCall.decryptCall c.handle output (some input) input.length) ∧
    oneCallStatus σ (Cipher.encrypt_inplace σ c buffer).1
      (Cipher.encrypt_inplace σ c buffer).2.2.2
      (NativeCall.encryptCall c.handle buffer none 0) ∧
    oneCallStatus σ (Cipher.decrypt_inplace σ c buffer).1
      (Cipher.decrypt_inplace σ c buffer).2.2.2
      (NativeCall.decryptCall c.handle buffer none 0) :=
  ⟨return_err_oneCall σ _, return_err_oneCall σ _, return_err_oneCall σ _,
   return_err_oneCall σ _, return_err_oneCall σ _, return_err_oneCall σ _,
   return_err_oneCall σ _, return_err_oneCall σ _, return_err_oneCall σ _,
   return_err_oneCall σ _, return_err_oneCall σ _⟩

/-- Claim C7: a failed name/OID lookup is an absent result, never an error:
`from_name`/`from_oid` return none exactly when the native lookup returns 0,
and otherwise some value whose raw code equals the non-zero native result. -/
theorem lookup_miss_is_absent (σ : Oracle) (name oid : String) :
    (Algorithm.from_name σ name = none ↔ σ.map_name name = 0) ∧
    (σ.map_name name ≠ 0 →
      ∃ a, Algorithm.from_name σ name = some a ∧ a.raw = σ.map_name name) ∧
    (Mode.from_oid σ oid = none ↔ σ.mode_from_oid oid = 0) ∧
    (σ.mode_from_oid oid ≠ 0 →
      ∃ m, Mode.from_oid σ oid = some m ∧ m.raw = σ.mode_from_oid oid) := by
  refine ⟨?_, ?_, ?_, ?_⟩
  · by_cases h : σ.map_name name = 0 <;>
      simp [Algorithm.from_name, Algorithm.from_raw, h]
  · intro h
    exact ⟨⟨σ.map_name name⟩, by simp [Algorithm.from_name, Algorithm.from_raw, h], rfl⟩
  · by_cases h : σ.mode_from_oid oid = 0 <;>
      simp [Mode.from_oid, Mode.from_raw, h]
  · intro h
    exact ⟨⟨σ.mode_from_oid oid⟩, by simp [Mode.from_oid, Mode.from_raw, h], rfl⟩

/-- Claim C9: `from_raw` wraps any raw code without checking it against the
variant table, so `from_name`/`from_oid` succeed for every non-zero native
result, including codes outside the listed enumeration (there is no
Unknown/unrecognized fallback variant). -/
theorem from_raw_unchecked :
    (∀ r : Int, (Algorithm.from_raw r).raw = r ∧ (Mode.from_raw r).raw = r) ∧
    (∀ (σ : Oracle) (name : String), σ.map_name name ≠ 0 →
      Algorithm.from_name σ name = some (Algorithm.from_raw (σ.map_name name))) ∧
    (∀ (σ : Oracle) (oid : String), σ.mode_from_oid oid ≠ 0 →
      Mode.from_oid σ oid = some (Mode.from_raw (σ.mode_from_oid oid))) ∧
    (∃ r : Int, r ∉ Algorithm.enumerated ∧ r ∉ Mode.enumerated ∧ r ≠ 0 ∧
      (Algorithm.from_raw r).raw = r ∧ (Mode.from_raw r).raw = r) := by
  refine ⟨fun r => ⟨rfl, rfl⟩, ?_, ?_, 20000, ?_, ?_, ?_, rfl, rfl⟩
  · intro σ name h
    simp [Algorithm.from_name, h]
  · intro σ oid h
    simp [Mode.from_oid, h]
  · decide
  · decide
  · decide

/-- Claim C10: `Cipher::new(algo, mode)` is definitionally
`Cipher::with_flags(algo, mode, Flags::NONE)`, and `Flags::NONE` is the empty
bitset with value 0: same success/error outcome, same resulting session and
world. -/
theorem new_eq_with_flags_none (σ : Oracle) (w : World) (algo : Algorithm)
    (mode : Mode) :
    Cipher.new σ w algo mode = Cipher.with_flags σ w algo mode Flags.NONE ∧
      Flags.NONE.bits = 0 :=
  ⟨rfl, rfl⟩

theorem with_flags_ok_handle (σ : Oracle) (w : World) (a : Algorithm)
    (m : Mode) (f : Flags) (c : Cipher) (w2 : World) (t : List NativeCall)
    (h : Cipher.with_flags σ w a m f = (.ok c, w2, t)) :
    c.handle = (init_default w).next_handle ∧
      w2.next_handle = (init_default w).next_handle + 1 := by
  by_cases hs : σ.status (NativeCall.openC a.raw m.raw f.bits) = 0 <;>
    simp [Cipher.with_flags, hs] at h
  obtain ⟨h1, h2, -⟩ := h
  subst h1 h2
  exact ⟨rfl, rfl⟩

/-- Claim C2: a session owns exactly one native context for its whole
lifetime: no session operation changes the stored handle or performs a native
close, two sessions produced by successive opens never share a handle (the
allocator hands out strictly increasing handles), and the destructor performs
exactly one native close, of the owned handle. -/
theorem cipher_handle_ownership :
    (∀ σ c key, (Cipher.set_key σ c key).2.1 = c ∧
      ∀ h, NativeCall.closeCall h ∉ (Cipher.set_key σ c key).2.2) ∧
    (∀ σ c iv, (Cipher.set_iv σ c iv).2.1 = c ∧
      ∀ h, NativeCall.closeCall h ∉ (Cipher.set_iv σ c iv).2.2) ∧
    (∀ σ c ctr, (Cipher.set_ctr σ c ctr).2.1 = c ∧
      ∀ h, NativeCall.closeCall h ∉ (Cipher.set_ctr σ c ctr).2.2) ∧
    (∀ σ c, (Cipher.reset σ c).2.1 = c ∧
      ∀ h, NativeCall.closeCall h ∉ (Cipher.reset σ c).2.2) ∧
    (∀ σ c aad, (Cipher.authenticate σ c aad).2.1 = c ∧
      ∀ h, NativeCall.closeCall h ∉ (Cipher.authenticate σ c aad).2.2) ∧
    (∀ σ c tag, (Cipher.get_tag σ c tag).2.2.1 = c ∧
      ∀ h, NativeCall.closeCall h ∉ (Cipher.get_tag σ c tag).2.2.2) ∧
    (∀ σ c tag, (Cipher.verify_tag σ c tag).2.1 = c ∧
      ∀ h, NativeCall.closeCall h ∉ (Cipher.verify_tag σ c tag).2.2) ∧
    (∀ σ c input output, (Cipher.encrypt σ c input output).2.2.1 = c ∧
      ∀ h, NativeCall.closeCall h ∉ (Cipher.encrypt σ c input output).2.2.2) ∧
    (∀ σ c input output, (Cipher.decrypt σ c input output).2.2.1 = c ∧
      ∀ h, NativeCall.closeCall h ∉ (Cipher.decrypt σ c input output).2.2.2) ∧
    (∀ σ c buf, (Cipher.encrypt_inplace σ c buf).2.2.1 = c ∧
      ∀ h, NativeCall.closeCall h ∉ (Cipher.encrypt_inplace σ c buf).2.2.2) ∧
    (∀ σ c buf, (Cipher.decrypt_inplace σ c buf).2.2.1 = c ∧
      ∀ h, NativeCall.closeCall h ∉ (Cipher.decrypt_inplace σ c buf).2.2.2) ∧
    (∀ σ σ2 w a m f a2 m2 f2 c1 c2 w1 w2 t1 t2,
      Cipher.with_flags σ w a m f = (.ok c1, w1, t1) →
      Cipher.with_flags σ2 w1 a2 m2 f2 = (.ok c2, w2, t2) →
      c1.handle ≠ c2.handle) ∧
    (∀ c, Cipher.drop c = [NativeCall.closeCall c.handle] ∧
      (Cipher.drop c).count (NativeCall.closeCall c.handle) = 1) := by
  refine ⟨?_, ?_, ?_, ?_, ?_, ?_, ?_, ?_, ?_, ?_, ?_, ?_, ?_⟩
  · exact fun σ c key => ⟨rfl, by simp [Cipher.set_key]⟩
  · exact fun σ c iv => ⟨rfl, by simp [Cipher.set_iv]⟩
  · exact fun σ c ctr => ⟨rfl, by simp [Cipher.set_ctr]⟩
  · exact fun σ c => ⟨rfl, by simp [Cipher.reset]⟩
  · exact fun σ c aad => ⟨rfl, by simp [Cipher.authenticate]⟩
  · exact fun σ c tag => ⟨rfl, by simp [Cipher.get_tag]⟩
  · exact fun σ c tag => ⟨rfl, by simp [Cipher.verify_tag]⟩
  · exact fun σ c input output => ⟨rfl, by simp [Cipher.encrypt]⟩
  · exact fun σ c input output => ⟨rfl, by simp [Cipher.decrypt]⟩
  · exact fun σ c buf => ⟨rfl, by simp [Cipher.encrypt_inplace]⟩
  · exact fun σ c buf => ⟨rfl, by simp [Cipher.decrypt_inplace]⟩
  · intro σ σ2 w a m f a2 m2 f2 c1 c2 w1 w2 t1 t2 h1 h2
    obtain ⟨e1, e1w⟩ := with_flags_ok_handle σ w a m f c1 w1 t1 h1
    obtain ⟨e2, -⟩ := with_flags_ok_handle σ2 w1 a2 m2 f2 c2 w2 t2 h2
    have : c2.handle = w1.next_handle := e2
    omega
  · exact fun c => ⟨rfl, by simp [Cipher.drop]⟩

/-- Claim C3: `with_flags` (and `new`) first triggers the idempotent
process-wide initialization, then performs exactly one native open call with
exactly the given algorithm code, mode code and flag bits; a non-zero open
status yields an Error carrying that status and no cipher, a zero status
yields a Cipher owning the freshly allocated handle. -/
theorem with_flags_open_contract (σ : Oracle) (w : World) (algo : Algorithm)
    (mode : Mode) (flags : Flags) :
    (Cipher.with_flags σ w algo mode flags).2.2 =
      [NativeCall.initCall, NativeCall.openC algo.raw mode.raw flags.bits] ∧
    init_default (init_default w) = init_default w ∧
    (init_default w).initialized = true ∧
    (σ.status (NativeCall.openC algo.raw mode.raw flags.bits) = 0 →
      (Cipher.with_flags σ w algo mode flags).1 =
        .ok ⟨(init_default w).next_handle⟩ ∧
      (Cipher.with_flags σ w algo mode flags).2.1.next_handle =
        (init_default w).next_handle + 1) ∧
    (σ.status (NativeCall.openC algo.raw mode.raw flags.bits) ≠ 0 →
      (Cipher.with_flags σ w algo mode flags).1 =
        .error ⟨σ.status (NativeCall.openC algo.raw mode.raw flags.bits)⟩) := by
  refine ⟨?_, rfl, rfl, ?_, ?_⟩
  · by_cases hs : σ.status (NativeCall.openC algo.raw mode.raw flags.bits) = 0 <;>
      simp [Cipher.with_flags, hs]
  · intro hs
    simp [Cipher.with_flags, hs]
  · intro hs
    simp [Cipher.with_flags, hs]

/-- Claim C4: `verify_tag` reports failure as a typed error carrying the
native status code: when the native tag check reports the
authentication-failure code, the result is an Error holding exactly that
code, which is a different error value from one holding a length-mismatch
code; and the result is Ok () exactly when the native check reports 0. -/
theorem verify_tag_typed_auth_error (σ : Oracle) (c : Cipher)
    (tag : List Byte) (authCode lenCode : Nat) (hne : authCode ≠ lenCode)
    (h0 : authCode ≠ 0)
    (hauth : σ.status (NativeCall.checktag c.handle tag tag.length) = authCode) :
    (Cipher.verify_tag σ c tag).1 = .error ⟨authCode⟩ ∧
    (Error.mk authCode ≠ Error.mk lenCode) ∧
    ∀ (σ2 : Oracle) (c2 : Cipher) (t2 : List Byte),
      ((Cipher.verify_tag σ2 c2 t2).1 = .ok () ↔
        σ2.status (NativeCall.checktag c2.handle t2 t2.length) = 0) := by
  refine ⟨?_, by simp [hne], ?_⟩
  · simp [Cipher.verify_tag, return_err, hauth, h0]
  · intro σ2 c2 t2
    exact (return_err_oneCall σ2 (NativeCall.checktag c2.handle t2 t2.length)).2.1

/-- Oracle used to witness the AEAD tag-check claim: the native tag check
always reports the authentication-failure code. -/
def authOracle : Oracle where
  status := fun call =>
    match call with
    | .checktag _ _ _ => 10
    | _ => 0
  out_bytes := fun _ => []
  map_name := fun _ => 0
  mode_from_oid := fun _ => 0
  algo_name := fun _ => none
  to_str := fun _ => .ok ""
  keylen := fun _ => 16
  blklen := fun _ => 16

theorem verify_tag_typed_auth_error_witness :
    (Cipher.verify_tag authOracle ⟨1⟩ [0]).1 = .error ⟨10⟩ ∧
    (Error.mk 10 ≠ Error.mk 57) ∧
    ∀ (σ2 : Oracle) (c2 : Cipher) (t2 : List Byte),
      ((Cipher.verify_tag σ2 c2 t2).1 = .ok () ↔
        σ2.status (NativeCall.checktag c2.handle t2 t2.length) = 0) :=
  verify_tag_typed_auth_error authOracle ⟨1⟩ [0] 10 57 (by decide) (by decide)
    rfl

/-- Claim C5: `set_key` passes the caller's key bytes and their exact length
to the native layer, unmodified; and for an algorithm whose native layer
rejects any key length different from `key_len()` with the invalid-key-length
code, `set_key` with such a length returns exactly that error and never
succeeds. -/
theorem set_key_exact_length_contract (σ : Oracle) (c : Cipher)
    (algo : Algorithm) (key : List Byte) (invCode : Nat) (h0 : invCode ≠ 0)
    (hnative : ∀ k : List Byte, k.length ≠ Algorithm.key_len σ algo →
      σ.status (NativeCall.setkey c.handle k k.length) = invCode)
    (hlen : key.length ≠ Algorithm.key_len σ algo) :
    (Cipher.set_key σ c key).2.2 =
      [NativeCall.setkey c.handle key key.length] ∧
    (Cipher.set_key σ c key).1 = .error ⟨invCode⟩ ∧
    (Cipher.set_key σ c key).1 ≠ .ok () ∧
    ∀ (σ2 : Oracle) (c2 : Cipher) (k2 : List Byte),
      (Cipher.set_key σ2 c2 k2).2.2 =
        [NativeCall.setkey c2.handle k2 k2.length] := by
  have hst := hnative key hlen
  refine ⟨rfl, ?_, ?_, fun σ2 c2 k2 => rfl⟩
  · simp [Cipher.set_key, return_err, hst, h0]
  · simp [Cipher.set_key, return_err, hst, h0]

/-- Oracle used to witness the key-length claim: a fixed key length of 16 and
a native setkey that rejects any other length with code 45. -/
def keyOracle : Oracle where
  status := fun call =>
    match call with
    | .setkey _ _ l => if l = 16 then 0 else 45
    | _ => 0
  out_bytes := fun _ => []
  map_name := fun _ => 0
  mode_from_oid := fun _ => 0
  algo_name := fun _ => none
  to_str := fun _ => .ok ""
  keylen := fun _ => 16
  blklen := fun _ => 16

theorem set_key_exact_length_contract_witness :
    (Cipher.set_key keyOracle ⟨1⟩ [1, 2, 3]).2.2 =
      [NativeCall.setkey 1 [1, 2, 3] 3] ∧
    (Cipher.set_key keyOracle ⟨1⟩ [1, 2, 3]).1 = .error ⟨45⟩ ∧
    (Cipher.set_key keyOracle ⟨1⟩ [1, 2, 3]).1 ≠ .ok () ∧
    ∀ (σ2 : Oracle) (c2 : Cipher) (k2 : List Byte),
      (Cipher.set_key σ2 c2 k2).2.2 =
        [NativeCall.setkey c2.handle k2 k2.length] :=
  set_key_exact_length_contract keyOracle ⟨1⟩ Algorithm.Aes128 [1, 2, 3] 45
    (by decide) (fun k hk => if_neg (by simpa [Algorithm.key_len, keyOracle] using hk))
    (by decide)

/-- Claim C6: in-place encryption/decryption is equivalent to the copying
form with the same region as both source and destination: given the native
library's documented in-place contract (a null input pointer means the output
buffer is both source and destination), `encrypt_inplace buffer` and
`encrypt buffer buffer` produce the same success/error outcome and the same
resulting buffer contents, and likewise for decryption. -/
theorem inplace_equiv_copying (σ : Oracle) (c : Cipher) (buffer : List Byte)
    (henc_st : σ.status (NativeCall.encryptCall c.handle buffer none 0) =
      σ.status (NativeCall.encryptCall c.handle buffer (some buffer)
        buffer.length))
    (henc_out : σ.out_bytes (NativeCall.encryptCall c.handle buffer none 0) =
      σ.out_bytes (NativeCall.encryptCall c.handle buffer (some buffer)
        buffer.length))
    (hdec_st : σ.status (NativeCall.decryptCall c.handle buffer none 0) =
      σ.status (NativeCall.decryptCall c.handle buffer (some buffer)
        buffer.length))
    (hdec_out : σ.out_bytes (NativeCall.decryptCall c.handle buffer none 0) =
      σ.out_bytes (NativeCall.decryptCall c.handle buffer (some buffer)
        buffer.length)) :
    (Cipher.encrypt_inplace σ c buffer).1 =
      (Cipher.encrypt σ c buffer buffer).1 ∧
    (Cipher.encrypt_inplace σ c buffer).2.1 =
      (Cipher.encrypt σ c buffer buffer).2.1 ∧
    (Cipher.decrypt_inplace σ c buffer).1 =
      (Cipher.decrypt σ c buffer buffer).1 ∧
    (Cipher.decrypt_inplace σ c buffer).2.1 =
      (Cipher.decrypt σ c buffer buffer).2.1 := by
  refine ⟨?_, ?_, ?_, ?_⟩ <;>
    simp [Cipher.encrypt, Cipher.encrypt_inplace, Cipher.decrypt,
      Cipher.decrypt_inplace, henc_st, henc_out, hdec_st, hdec_out]

/-- Oracle used to witness the in-place equivalence claim: status and output
bytes of the native transform calls do not depend on the input-pointer field,
so the in-place contract holds definitionally. -/
def flatOracle : Oracle where
  status := fun call =>
    match call with
    | .encryptCall _ out _ _ => out.length
    | .decryptCall _ out _ _ => out.length
    | _ => 0
  out_bytes := fun call =>
    match call with
    | .encryptCall _ out _ _ => out.reverse
    | .decryptCall _ out _ _ => out.reverse
    | _ => []
  map_name := fun _ => 0
  mode_from_oid := fun _ => 0
  algo_name := fun _ => none
  to_str := fun _ => .ok ""
  keylen := fun _ => 16
  blklen := fun _ => 16

theorem inplace_equiv_copying_witness :
    (Cipher.encrypt_inplace flatOracle ⟨2⟩ [5, 6]).1 =
      (Cipher.encrypt flatOracle ⟨2⟩ [5, 6] [5, 6]).1 ∧
    (Cipher.encrypt_inplace flatOracle ⟨2⟩ [5, 6]).2.1 =
      (Cipher.encrypt flatOracle ⟨2⟩ [5, 6] [5, 6]).2.1 ∧
    (Cipher.decrypt_inplace flatOracle ⟨2⟩ [5, 6]).1 =
      (Cipher.decrypt flatOracle ⟨2⟩ [5, 6] [5, 6]).1 ∧
    (Cipher.decrypt_inplace flatOracle ⟨2⟩ [5, 6]).2.1 =
      (Cipher.decrypt flatOracle ⟨2⟩ [5, 6] [5, 6]).2.1 :=
  inplace_equiv_copying flatOracle ⟨2⟩ [5, 6] rfl rfl rfl rfl

/-- Claim C8: `Algorithm::name` returns Ok with the native name when the
library knows one and it decodes as valid text; it returns the absent-name
error (none) exactly when the library has no name, and the decode error
(some e) exactly when the native name bytes fail to decode. -/
theorem algorithm_name_cases (σ : Oracle) (a : Algorithm) :
    (Algorithm.name σ a = .error none ↔ Algorithm.name_raw σ a = none) ∧
    (∀ s, Algorithm.name σ a = .ok s ↔
      ∃ bytes, Algorithm.name_raw σ a = some bytes ∧ σ.to_str bytes = .ok s) ∧
    (∀ e, Algorithm.name σ a = .error (some e) ↔
      ∃ bytes, Algorithm.name_raw σ a = some bytes ∧
        σ.to_str bytes = .error e) := by
  rcases hn : Algorithm.name_raw σ a with - | bytes
  · simp [Algorithm.name, hn]
  · rcases ht : σ.to_str bytes with e | t <;>
      simp [Algorithm.name, hn, ht]

end Gcrypt
